import Mathlib

/-!
Verification of the cluster-orchestration core of `illumio-cluster-manager`.

This file gives a shallow embedding, in Lean, of the code paths exercised by
the workflows of `app/services/illumio_service.py` together with the helpers
they depend on (`app/utils/helpers.py`, `app/utils/constants.py`,
`app/models/schemas.py`, `app/core/api_client.py`, `app/core/vault_client.py`),
and proves properties of the embedded definitions.

Modelling conventions:
* Python exceptions become an inductive `Exc`; `str(e)` becomes `Exc.msg`.
* JSON-ish values (request payloads) become the inductive `PyVal`.
* The two outbound effect boundaries (`self.api.request(...)` and the
  `self.vault.*` calls) are modelled by an environment `Env` of response
  functions, one per backend operation, each returning `Except Exc _`
  (a raised exception or a decoded response).  Every service method is a pure
  function of its arguments and the environment; in addition to its
  return-or-raise value it yields the ordered trace (`List Call`) of boundary
  calls it performed, so that call-count and call-order properties can be
  stated directly.
* Wire records (decoded JSON) are structures mirroring the pydantic models;
  the explicitly written pydantic validators are embedded as `mk*` parsing
  functions.  Wall-clock timestamp fields (`created_at` / `updated_at`) are
  elided as nondeterministic and unread by the verified workflows.
-/

namespace IllumioMgr

/-- Python exception values, as (class, message) pairs.  Only the classes the
embedded code can raise are represented.  For every one of these classes
`str(e)` is the message passed to the constructor. -/
inductive Exc where
  | valueError (m : String)
  | attributeError (m : String)
  | illumioError (m : String)
  | clusterOperationError (m : String)
  | labelOperationError (m : String)
  | apiError (m : String)
  | vaultError (m : String)
  deriving Repr, DecidableEq

/-- Python `str(e)` for the exception classes above: all of them store the
constructor message (`app/utils/exceptions.py` passes `message` to
`super().__init__`). -/
def Exc.msg : Exc → String
  | .valueError m => m
  | .attributeError m => m
  | .illumioError m => m
  | .clusterOperationError m => m
  | .labelOperationError m => m
  | .apiError m => m
  | .vaultError m => m

/-- JSON-like Python values, used for request payloads. -/
inductive PyVal where
  | str (s : String)
  | int (n : Int)
  | bool (b : Bool)
  | none
  | list (xs : List PyVal)
  | dict (kvs : List (String × PyVal))

/-- Lift an optional string (`None`-or-string) to `PyVal`. -/
def optStr : Option String → PyVal
  | Option.none => PyVal.none
  | Option.some s => PyVal.str s

/-- Python `s.lstrip('/')`. -/
def lstripSlash (s : String) : String :=
  ⟨s.data.dropWhile (· == '/')⟩

/-- Python `s.rstrip('/')`. -/
def rstripSlash (s : String) : String :=
  ⟨(s.data.reverse.dropWhile (· == '/')).reverse⟩

/-- Python `s.strip('/')`. -/
def stripSlash (s : String) : String :=
  lstripSlash (rstripSlash s)

/-- Python `cs.split(sep)` on a character list: splits at every separator
occurrence, keeping empty groups (`split` never yields an empty list). -/
def splitOnChar (sep : Char) : List Char → List (List Char)
  | [] => [[]]
  | c :: rest =>
    let r := splitOnChar sep rest
    if c == sep then [] :: r
    else
      match r with
      | [] => [[c]]
      | g :: gs => (c :: g) :: gs

/-- Python `href.split('/')[-1]` (`split` on a separator never yields an empty
list, so `[-1]` is total). -/
def lastSegment (s : String) : String :=
  ⟨(splitOnChar '/' s.data).getLastD []⟩

/-- Lowercase-alphanumeric character class `[a-z0-9]`. -/
def isLowerAlnum (c : Char) : Bool :=
  (Char.ofNat 97 ≤ c && c ≤ Char.ofNat 122) || (Char.ofNat 48 ≤ c && c ≤ Char.ofNat 57)

/-- Character class `[a-z0-9-]`. -/
def isLowerAlnumDash (c : Char) : Bool :=
  isLowerAlnum c || c == '-'

/-- Anchored match of `[a-z0-9][a-z0-9-]*[a-z0-9]` against a whole character
list: at least two characters, alphanumeric at both ends, alphanumerics and
hyphens between (`PATTERNS['cluster_name']` = `PATTERNS['namespace']` in
`app/utils/constants.py`). -/
def clusterNameCore (cs : List Char) : Bool :=
  match cs with
  | [] => false
  | [_] => false
  | c :: rest =>
    isLowerAlnum c && (rest.dropLast.all isLowerAlnumDash) &&
      (match rest.getLast? with
       | Option.some d => isLowerAlnum d
       | Option.none => false)

/-- Alphanumeric (either case) character class `[a-z0-9A-Z]`. -/
def isAlnum (c : Char) : Bool :=
  isLowerAlnum c || (Char.ofNat 65 ≤ c && c ≤ Char.ofNat 90)

/-- Character class of alphanumerics plus dot, underscore, slash and hyphen. -/
def isLabelMid (c : Char) : Bool :=
  isAlnum c || c == '.' || c == '_' || c == '/' || c == '-'

/-- Anchored match of the label pattern (`PATTERNS['label_key']` =
`PATTERNS['label_value']`): alphanumeric at both ends, the middle drawn from
alphanumerics plus dot, underscore, slash and hyphen. -/
def labelCore (cs : List Char) : Bool :=
  match cs with
  | [] => false
  | [_] => false
  | c :: rest =>
    isAlnum c && (rest.dropLast.all isLabelMid) &&
      (match rest.getLast? with
       | Option.some d => isAlnum d
       | Option.none => false)

/-- Python `bool(re.match(pattern, s))` for a pattern of the form `^...$`: Python's
`$` matches at the end of the string or just before a terminating newline, so
the whole string must match, or the string must end in a newline whose
remainder matches. -/
def pyDollarMatch (core : List Char → Bool) (s : String) : Bool :=
  core s.data ||
    (match s.data.getLast? with
     | Option.some c => c == '\n' && core s.data.dropLast
     | Option.none => false)

/-- Embeds `ValidationHelper.is_valid_cluster_name` (`app/utils/helpers.py`):
`bool(re.match(PATTERNS['cluster_name'], name))`. -/
def is_valid_cluster_name (name : String) : Bool :=
  pyDollarMatch clusterNameCore name

/-- Embeds `ValidationHelper.is_valid_namespace`:
`bool(re.match(PATTERNS['namespace'], namespace))` — same pattern text as the
cluster-name pattern. -/
def is_valid_namespace (ns : String) : Bool :=
  pyDollarMatch clusterNameCore ns

/-- Embeds `ValidationHelper.is_valid_label(key, value)`:
`bool(re.match(PATTERNS['label_key'], key) and re.match(PATTERNS['label_value'], value))`. -/
def is_valid_label (key value : String) : Bool :=
  pyDollarMatch labelCore key && pyDollarMatch labelCore value

example : is_valid_cluster_name "test-cluster" = true := by decide
example : is_valid_cluster_name "prod-east" = true := by decide
example : is_valid_cluster_name "a" = false := by decide
example : is_valid_cluster_name "Invalid NS" = false := by decide
example : is_valid_namespace "illumio-system" = true := by decide
example : is_valid_namespace "invalid namespace" = false := by decide
example : is_valid_label "namespace" "frontend" = true := by decide

/-- Decoded container-cluster JSON object; fields of the pydantic
`ContainerCluster` model (`app/models/schemas.py`).  The same structure serves
as the parsed model value once `mkContainerCluster` has validated it. -/
structure ClusterRecord where
  name : String
  description : Option String := Option.none
  container_cluster_token : Option String := Option.none
  enforcement_mode : String := "visibility_only"
  container_runtime : String := "kubernetes"
  manager_type : String := "kubernetes"
  online : Bool := true
  href : Option String := Option.none
  deriving Repr, DecidableEq

/-- The three values of the `IllumioEnforcementMode` enum. -/
def enforcementModes : List String := ["visibility_only", "selective", "full"]

/-- Embeds `ContainerCluster(**record)`: pydantic validation of a decoded cluster
object — the explicit `validate_cluster_name` field validator plus the
enum coercion of `enforcement_mode`. -/
def mkContainerCluster (r : ClusterRecord) : Except Exc ClusterRecord :=
  if !(is_valid_cluster_name r.name) then
    .error (.valueError ("Invalid cluster name format: " ++ r.name))
  else if !(enforcementModes.contains r.enforcement_mode) then
    .error (.valueError ("Invalid enforcement mode: " ++ r.enforcement_mode))
  else .ok r

/-- Decoded label JSON object; fields of the pydantic `Label` model. -/
structure LabelRecord where
  key : String
  value : String
  href : Option String := Option.none
  deriving Repr, DecidableEq

/-- Embeds `Label(**record)`: the `validate_label_format` field validator runs on
`key` and on `value`; note that the source calls `is_valid_label(v, v)`,
checking each single field against both (identical) label patterns. -/
def mkLabel (r : LabelRecord) : Except Exc LabelRecord :=
  if !(is_valid_label r.key r.key) then
    .error (.valueError ("Invalid key format: " ++ r.key))
  else if !(is_valid_label r.value r.value) then
    .error (.valueError ("Invalid value format: " ++ r.value))
  else .ok r

/-- Decoded container-workload-profile JSON object; fields of the pydantic
`ContainerProfile` model (label lists elided: never read by the verified
workflows and carrying no validator). -/
structure ProfileRecord where
  name : String
  description : Option String := Option.none
  «namespace» : Option String := Option.none
  managed : Bool := true
  enforcement_mode : String := "visibility_only"
  visibility_level : String := "flow_summary"
  href : Option String := Option.none
  deriving Repr, DecidableEq

/-- Embeds `ContainerProfile(**record)`: the `validate_namespace` field validator
(namespace checked only when present) plus enum coercion of
`enforcement_mode`. -/
def mkContainerProfile (r : ProfileRecord) : Except Exc ProfileRecord :=
  let nsCheck : Except Exc Unit :=
    match r.«namespace» with
    | Option.some ns =>
      if !(is_valid_namespace ns) then
        .error (.valueError ("Invalid namespace format: " ++ ns))
      else .ok ()
    | Option.none => .ok ()
  match nsCheck with
  | .error e => .error e
  | .ok _ =>
    if !(enforcementModes.contains r.enforcement_mode) then
      .error (.valueError ("Invalid enforcement mode: " ++ r.enforcement_mode))
    else .ok r

/-- The pydantic `Rule` model: field values before the `model_validator`
runs. -/
structure Rule where
  name : String
  enabled : Bool := true
  description : Option String := Option.none
  ingress_services : List PyVal := []
  resolve_labels_as : List (String × String) := []
  consumers : List PyVal := []
  providers : List PyVal := []
  href : Option String := Option.none

/-- Embeds `Rule(**fields)`: the `validate_rule_components` model validator —
at least one ingress service, non-empty consumers and providers. -/
def Rule.validate (r : Rule) : Except Exc Rule :=
  if r.ingress_services.isEmpty then
    .error (.valueError "Rule must have at least one ingress service")
  else if r.consumers.isEmpty || r.providers.isEmpty then
    .error (.valueError "Rule must have both consumers and providers")
  else .ok r

/-- Embeds `rule.model_dump(exclude_none=True)`: the rule as a JSON object in field
declaration order, with `None`-valued optional fields (`description`, `href`)
omitted.  Empty lists and the empty `resolve_labels_as` mapping are kept —
`exclude_none` drops only `None`. -/
def Rule.dumpExcludeNone (r : Rule) : PyVal :=
  .dict ([("name", .str r.name), ("enabled", .bool r.enabled)]
    ++ (match r.description with
        | Option.some d => [("description", PyVal.str d)]
        | Option.none => [])
    ++ [("ingress_services", .list r.ingress_services),
        ("resolve_labels_as", .dict (r.resolve_labels_as.map fun kv => (kv.1, PyVal.str kv.2))),
        ("consumers", .list r.consumers),
        ("providers", .list r.providers)]
    ++ (match r.href with
        | Option.some h => [("href", PyVal.str h)]
        | Option.none => []))

/-- Decoded pairing-profile JSON object; `_generate_pairing_key` reads only
its `href`. -/
structure PairingProfileRecord where
  href : String
  deriving Repr, DecidableEq

/-- Decoded pairing-key JSON object; only `activation_code` is read. -/
structure PairingKeyRecord where
  activation_code : String
  deriving Repr, DecidableEq

/-- The pydantic `ClusterConfig` model (timestamp fields elided as
wall-clock nondeterminism). -/
structure ClusterConfig where
  cluster_id : String
  cluster_name : String
  cluster_token : String
  pairing_key : String
  «namespace» : String := "illumio-system"
  deriving Repr, DecidableEq

/-- Embeds `ClusterConfig(cluster_id=..., cluster_name=..., cluster_token=...,
pairing_key=...)`: `cluster_token` is a required `str`, so a `None` token
raises; the `validate_names` field validator checks `cluster_name` (the
`namespace` field keeps its default, and pydantic does not validate
defaults). -/
def mkClusterConfig (cluster_id cluster_name : String)
    (cluster_token : Option String) (pairing_key : String) :
    Except Exc ClusterConfig :=
  match cluster_token with
  | Option.none => .error (.valueError "cluster_token: Input should be a valid string")
  | Option.some tok =>
    if !(is_valid_cluster_name cluster_name) then
      .error (.valueError ("Invalid cluster name format: " ++ cluster_name))
    else
      .ok { cluster_id := cluster_id, cluster_name := cluster_name,
            cluster_token := tok, pairing_key := pairing_key }

/-- Embeds `config.model_dump()` for a `ClusterConfig` (timestamps elided). -/
def ClusterConfig.dump (c : ClusterConfig) : PyVal :=
  .dict [("cluster_id", .str c.cluster_id), ("cluster_name", .str c.cluster_name),
         ("cluster_token", .str c.cluster_token), ("pairing_key", .str c.pairing_key),
         ("namespace", .str c.«namespace»)]

/-- Embeds `URLHelper.join_url(base, *parts)` (`app/utils/helpers.py`): strips the
trailing slashes of `base`, then folds `urljoin(url + "/", part.lstrip('/'))`
over the parts.  For the plain relative endpoint paths this repository passes
(no scheme, no leading slash after the strip, no dot segments), `urljoin`
against a base ending in a slash is concatenation. -/
def join_url (base : String) (parts : List String) : String :=
  parts.foldl (fun url part => url ++ "/" ++ lstripSlash part) (rstripSlash base)

/-- The URL `BaseAPIClient.request` sends a request to
(`app/core/api_client.py` line 139): `URLHelper.join_url(self.base_url, endpoint)`,
where `self.base_url` is the configured PCE base URL with trailing slashes
stripped. -/
def request_url (base_url endpoint : String) : String :=
  join_url (rstripSlash base_url) [endpoint]

/-- Embeds `IllumioService._build_url(endpoint)` (`app/services/illumio_service.py`
line 46): the organization-scoped URL
`{base_url}/orgs/{org_id}/{endpoint.strip('/')}`.  No call site in the
repository invokes it. -/
def build_url (base_url org_id endpoint : String) : String :=
  base_url ++ "/orgs/" ++ org_id ++ "/" ++ stripSlash endpoint

/-- One boundary call performed by the service: an `api.request` invocation
(method, endpoint, query params, JSON body) or a vault-client invocation.
The recorded endpoint is the string the service passes to
`BaseAPIClient.request`; the URL actually contacted is
`request_url base_url endpoint`. -/
inductive Call where
  | apiReq (method : String) (endpoint : String)
      (params : List (String × String)) (data : Option PyVal)
  | vaultStore (path : String) (data : PyVal)
  | vaultDeleteVersions (path : String) (versions : List Int)

/-- Backend responses, one function per distinct backend operation the
service performs.  Each returns the decoded response or the exception the
client layer raised. -/
structure Env where
  getClusters : String → Except Exc (List ClusterRecord)
  postCluster : PyVal → Except Exc ClusterRecord
  getLabels : String → String → Except Exc (List LabelRecord)
  postLabel : PyVal → Except Exc LabelRecord
  getProfiles : String → Except Exc (List ProfileRecord)
  postProfile : String → PyVal → Except Exc ProfileRecord
  postPairingProfile : PyVal → Except Exc PairingProfileRecord
  postPairingKey : String → Except Exc PairingKeyRecord
  postSecPolicy : PyVal → Except Exc Rule
  deleteApi : String → Except Exc PyVal
  storeSecret : String → PyVal → Except Exc Bool
  deleteSecretVersions : String → List Int → Except Exc Bool

/-- Embeds Python `except Exception as e: raise F(head + str(e))` — the per-workflow
catch-all wrapper. -/
def wrapExc (f : String → Exc) : Except Exc α → Except Exc α
  | .ok a => .ok a
  | .error e => .error (f e.msg)

/-- The `GET container_clusters?name=...` call of `get_cluster`. -/
def getClustersCall (cluster_name : String) : Call :=
  .apiReq "GET" "container_clusters" [("name", cluster_name)] Option.none

/-- Body of `IllumioService.get_cluster` (the `try` block): one name-filtered
list request, then a scan for the first exact name match, parsed through the
`ContainerCluster` model; no match yields `None`. -/
def get_cluster_body (env : Env) (cluster_name : String) :
    Except Exc (Option ClusterRecord) × List Call :=
  match env.getClusters cluster_name with
  | .error e => (.error e, [getClustersCall cluster_name])
  | .ok clusters =>
    match clusters.find? (fun c => c.name == cluster_name) with
    | Option.none => (.ok Option.none, [getClustersCall cluster_name])
    | Option.some c =>
      match mkContainerCluster c with
      | .error e => (.error e, [getClustersCall cluster_name])
      | .ok cc => (.ok (Option.some cc), [getClustersCall cluster_name])

/-- Embeds `IllumioService.get_cluster`: body plus the `except` clause re-raising as
`IllumioError`. -/
def get_cluster (env : Env) (cluster_name : String) :
    Except Exc (Option ClusterRecord) × List Call :=
  match get_cluster_body env cluster_name with
  | (r, t) =>
    (wrapExc (fun s => .illumioError ("Failed to get cluster " ++ cluster_name ++ ": " ++ s)) r, t)

/-- The pairing-profile creation payload of `_generate_pairing_key`:
`{'name': f"{cluster_name}-profile", **ILLUMIO_DEFAULT_SETTINGS}`. -/
def pairingProfilePayload (cluster_name : String) : PyVal :=
  .dict [("name", .str (cluster_name ++ "-profile")),
         ("enforcement_mode", .str "visibility_only"),
         ("visibility_level", .str "flow_summary"),
         ("log_traffic", .bool false),
         ("log_traffic_lock", .bool true),
         ("enforcement_mode_lock", .bool true)]

/-- Embeds `IllumioService._generate_pairing_key`: create a pairing profile, take the
last segment of its `href` as profile id, request one pairing key from it and
return the activation code.  No local exception handling. -/
def generate_pairing_key (env : Env) (cluster_name : String) :
    Except Exc String × List Call :=
  let call1 := Call.apiReq "POST" "pairing_profiles" [] (Option.some (pairingProfilePayload cluster_name))
  match env.postPairingProfile (pairingProfilePayload cluster_name) with
  | .error e => (.error e, [call1])
  | .ok prof =>
    let profile_id := lastSegment prof.href
    let call2 := Call.apiReq "POST" ("pairing_profiles/" ++ profile_id ++ "/pairing_key") [] Option.none
    match env.postPairingKey profile_id with
    | .error e => (.error e, [call1, call2])
    | .ok k => (.ok k.activation_code, [call1, call2])

/-- Embeds `IllumioService._store_cluster_config`: derive the cluster id from the
`href` (an absent `href` raises `AttributeError`, before the pairing-key
sub-workflow runs — Python evaluates the `ClusterConfig` keyword arguments
left to right), generate a pairing key, build the `ClusterConfig` and upsert
it at `clusters/{name}`.  No local exception handling. -/
def store_cluster_config (env : Env) (cluster : ClusterRecord) :
    Except Exc Unit × List Call :=
  match cluster.href with
  | Option.none =>
    (.error (.attributeError "'NoneType' object has no attribute 'split'"), [])
  | Option.some href =>
    let cluster_id := lastSegment href
    match generate_pairing_key env cluster.name with
    | (.error e, t1) => (.error e, t1)
    | (.ok key, t1) =>
      match mkClusterConfig cluster_id cluster.name cluster.container_cluster_token key with
      | .error e => (.error e, t1)
      | .ok config =>
        let path := "clusters/" ++ cluster.name
        match env.storeSecret path config.dump with
        | .error e => (.error e, t1 ++ [Call.vaultStore path config.dump])
        | .ok _ => (.ok (), t1 ++ [Call.vaultStore path config.dump])

/-- The `IllumioEnforcementMode` enum (`app/utils/constants.py`). -/
inductive IllumioEnforcementMode where
  | visibility_only
  | selective
  | full
  deriving Repr, DecidableEq

/-- The string value of an `IllumioEnforcementMode` member. -/
def IllumioEnforcementMode.value : IllumioEnforcementMode → String
  | .visibility_only => "visibility_only"
  | .selective => "selective"
  | .full => "full"

/-- The cluster-creation payload of `create_cluster`. -/
def clusterPayload (cluster_name : String) (description : Option String)
    (enforcement_mode : String) : PyVal :=
  .dict [("name", .str cluster_name), ("description", optStr description),
         ("enforcement_mode", .str enforcement_mode)]

/-- Body of `IllumioService.create_cluster` (the `try` block): validate the
name (raising `ValueError` before any boundary call), POST the creation
request, parse the response through `ContainerCluster` and store the derived
`ClusterConfig` in the vault. -/
def create_cluster_body (env : Env) (cluster_name : String)
    (description : Option String) (enforcement_mode : IllumioEnforcementMode) :
    Except Exc ClusterRecord × List Call :=
  if !(is_valid_cluster_name cluster_name) then
    (.error (.valueError ("Invalid cluster name: " ++ cluster_name)), [])
  else
    let payload := clusterPayload cluster_name description enforcement_mode.value
    let call := Call.apiReq "POST" "container_clusters" [] (Option.some payload)
    match env.postCluster payload with
    | .error e => (.error e, [call])
    | .ok rec =>
      match mkContainerCluster rec with
      | .error e => (.error e, [call])
      | .ok cluster =>
        match store_cluster_config env cluster with
        | (.error e, t2) => (.error e, call :: t2)
        | (.ok _, t2) => (.ok cluster, call :: t2)

/-- Embeds `IllumioService.create_cluster`: body plus the `except` clause re-raising
any exception as `ClusterOperationError` carrying the original cause. -/
def create_cluster (env : Env) (cluster_name : String)
    (description : Option String) (enforcement_mode : IllumioEnforcementMode) :
    Except Exc ClusterRecord × List Call :=
  match create_cluster_body env cluster_name description enforcement_mode with
  | (r, t) =>
    (wrapExc (fun s => .clusterOperationError ("Failed to create cluster " ++ cluster_name ++ ": " ++ s)) r, t)

/-- The `GET labels?key=...&value=...` call of `get_or_create_label`. -/
def getLabelsCall (key value : String) : Call :=
  .apiReq "GET" "labels" [("key", key), ("value", value)] Option.none

/-- The label-creation payload of `get_or_create_label`. -/
def labelPayload (key value : String) : PyVal :=
  .dict [("key", .str key), ("value", .str value)]

/-- Body of `IllumioService.get_or_create_label` (the `try` block): one read
query; a non-empty result returns `Label(**labels[0])` — the head of the
result, with no key/value match check; an empty result POSTs a creation
request and returns the created label. -/
def get_or_create_label_body (env : Env) (key value : String) :
    Except Exc LabelRecord × List Call :=
  match env.getLabels key value with
  | .error e => (.error e, [getLabelsCall key value])
  | .ok labels =>
    match labels with
    | l :: _ => (mkLabel l, [getLabelsCall key value])
    | [] =>
      let call2 := Call.apiReq "POST" "labels" [] (Option.some (labelPayload key value))
      match env.postLabel (labelPayload key value) with
      | .error e => (.error e, [getLabelsCall key value, call2])
      | .ok rec => (mkLabel rec, [getLabelsCall key value, call2])

/-- Embeds `IllumioService.get_or_create_label`: body plus the `except` clause
re-raising as `LabelOperationError`. -/
def get_or_create_label (env : Env) (key value : String) :
    Except Exc LabelRecord × List Call :=
  match get_or_create_label_body env key value with
  | (r, t) =>
    (wrapExc (fun s => .labelOperationError ("Failed to get/create label " ++ key ++ "=" ++ value ++ ": " ++ s)) r, t)

/-- The per-cluster workload-profiles endpoint. -/
def profilesEndpoint (cluster_id : String) : String :=
  "container_clusters/" ++ cluster_id ++ "/container_workload_profiles"

/-- The profile-creation payload of `create_namespace_profile`: namespace,
`managed = True`, visibility-only enforcement, and — only when the `labels`
argument is truthy (neither `None` nor empty) — an `assign_labels` entry. -/
def profilePayload (ns : String) (labels : Option (List PyVal)) : PyVal :=
  .dict ([("namespace", .str ns), ("managed", .bool true),
          ("enforcement_mode", .str "visibility_only")]
    ++ (match labels with
        | Option.some ls => if ls.isEmpty then [] else [("assign_labels", PyVal.list ls)]
        | Option.none => []))

/-- Body of `IllumioService.create_namespace_profile` (the `try` block):
validate the namespace (raising `ValueError` before any boundary call), then
POST the profile under the cluster's resource path and parse the response
through `ContainerProfile`. -/
def create_namespace_profile_body (env : Env) (cluster_id ns : String)
    (labels : Option (List PyVal)) : Except Exc ProfileRecord × List Call :=
  if !(is_valid_namespace ns) then
    (.error (.valueError ("Invalid namespace: " ++ ns)), [])
  else
    let payload := profilePayload ns labels
    let call := Call.apiReq "POST" (profilesEndpoint cluster_id) [] (Option.some payload)
    match env.postProfile cluster_id payload with
    | .error e => (.error e, [call])
    | .ok rec =>
      match mkContainerProfile rec with
      | .error e => (.error e, [call])
      | .ok p => (.ok p, [call])

/-- Embeds `IllumioService.create_namespace_profile`: body plus the `except` clause
re-raising as `IllumioError`. -/
def create_namespace_profile (env : Env) (cluster_id ns : String)
    (labels : Option (List PyVal)) : Except Exc ProfileRecord × List Call :=
  match create_namespace_profile_body env cluster_id ns labels with
  | (r, t) =>
    (wrapExc (fun s => .illumioError ("Failed to create profile for namespace " ++ ns ++ ": " ++ s)) r, t)

/-- The rule submitted by `create_intra_namespace_rule`, before dumping:
named `{cluster}-{namespace}-intra-ns`, a single TCP ingress service
(`{'proto': 6}`, no port restriction), and the namespace label's `href` as
the sole consumer and sole provider. -/
def intraNamespaceRule (ns cluster_name : String) (label_href : Option String) : Rule :=
  { name := cluster_name ++ "-" ++ ns ++ "-intra-ns",
    enabled := true,
    ingress_services := [.dict [("proto", .int 6)]],
    consumers := [.dict [("label", .dict [("href", optStr label_href)])]],
    providers := [.dict [("label", .dict [("href", optStr label_href)])]] }

/-- Body of `IllumioService.create_intra_namespace_rule` (the `try` block):
resolve-or-create the `namespace`-keyed label, build the intra-namespace
`Rule` (running its model validator), POST its `exclude_none` dump to
`sec_policy` and parse the response as a `Rule`. -/
def create_intra_namespace_rule_body (env : Env) (ns cluster_name : String) :
    Except Exc Rule × List Call :=
  match get_or_create_label env "namespace" ns with
  | (.error e, t1) => (.error e, t1)
  | (.ok lbl, t1) =>
    match (intraNamespaceRule ns cluster_name lbl.href).validate with
    | .error e => (.error e, t1)
    | .ok rule =>
      let payload := rule.dumpExcludeNone
      let call := Call.apiReq "POST" "sec_policy" [] (Option.some payload)
      match env.postSecPolicy payload with
      | .error e => (.error e, t1 ++ [call])
      | .ok resp => (resp.validate, t1 ++ [call])

/-- Embeds `IllumioService.create_intra_namespace_rule`: body plus the `except`
clause re-raising as `IllumioError`. -/
def create_intra_namespace_rule (env : Env) (ns cluster_name : String) :
    Except Exc Rule × List Call :=
  match create_intra_namespace_rule_body env ns cluster_name with
  | (r, t) =>
    (wrapExc (fun s => .illumioError ("Failed to create intra-namespace rule: " ++ s)) r, t)

/-- Body of `IllumioService.delete_cluster` (the `try` block): look the
cluster up by name; absent yields `False` with no further call; present
triggers a PCE `DELETE` on the id taken from the cluster's `href` followed by
a vault deletion of `clusters/{name}` (with an empty versions list), and
yields `True`. -/
def delete_cluster_body (env : Env) (cluster_name : String) :
    Except Exc Bool × List Call :=
  match get_cluster env cluster_name with
  | (.error e, t1) => (.error e, t1)
  | (.ok Option.none, t1) => (.ok false, t1)
  | (.ok (Option.some cluster), t1) =>
    match cluster.href with
    | Option.none =>
      (.error (.attributeError "'NoneType' object has no attribute 'split'"), t1)
    | Option.some href =>
      let cluster_id := lastSegment href
      let dcall := Call.apiReq "DELETE" ("container_clusters/" ++ cluster_id) [] Option.none
      match env.deleteApi ("container_clusters/" ++ cluster_id) with
      | .error e => (.error e, t1 ++ [dcall])
      | .ok _ =>
        let path := "clusters/" ++ cluster_name
        match env.deleteSecretVersions path [] with
        | .error e => (.error e, t1 ++ [dcall, Call.vaultDeleteVersions path []])
        | .ok _ => (.ok true, t1 ++ [dcall, Call.vaultDeleteVersions path []])

/-- Embeds `IllumioService.delete_cluster`: body plus the `except` clause re-raising
as `ClusterOperationError`. -/
def delete_cluster (env : Env) (cluster_name : String) :
    Except Exc Bool × List Call :=
  match delete_cluster_body env cluster_name with
  | (r, t) =>
    (wrapExc (fun s => .clusterOperationError ("Failed to delete cluster " ++ cluster_name ++ ": " ++ s)) r, t)

/-- Embeds `[ContainerProfile(**p) for p in response]`: parse each record, stopping
at the first validation failure. -/
def mapExcept (f : α → Except Exc β) : List α → Except Exc (List β)
  | [] => .ok []
  | x :: xs =>
    match f x with
    | .error e => .error e
    | .ok b =>
      match mapExcept f xs with
      | .error e => .error e
      | .ok bs => .ok (b :: bs)

/-- Body of `IllumioService.get_cluster_profiles` (the `try` block): one GET
of the cluster's workload profiles, each parsed through `ContainerProfile`. -/
def get_cluster_profiles_body (env : Env) (cluster_id : String) :
    Except Exc (List ProfileRecord) × List Call :=
  let call := Call.apiReq "GET" (profilesEndpoint cluster_id) [] Option.none
  match env.getProfiles cluster_id with
  | .error e => (.error e, [call])
  | .ok recs => (mapExcept mkContainerProfile recs, [call])

/-- Embeds `IllumioService.get_cluster_profiles`: body plus the `except` clause
re-raising as `IllumioError`. -/
def get_cluster_profiles (env : Env) (cluster_id : String) :
    Except Exc (List ProfileRecord) × List Call :=
  match get_cluster_profiles_body env cluster_id with
  | (r, t) =>
    (wrapExc (fun s => .illumioError ("Failed to get cluster profiles: " ++ s)) r, t)

/-- The namespaces of the existing profiles:
`{p.namespace for p in existing_profiles if p.namespace is not None}`. -/
def existingNamespaces (profiles : List ProfileRecord) : List String :=
  profiles.filterMap (fun p => p.«namespace»)

/-- Embeds `set(namespaces) - existing_namespaces`, enumerated as a list: the input
deduplicated, keeping only namespaces not already profiled.  (Python's set
iteration order is unspecified; every property proved about the loop is
independent of this enumeration order.) -/
def missingNamespaces (namespaces existing : List String) : List String :=
  namespaces.dedup.filter (fun n => !(decide (n ∈ existing)))

/-- The creation loop of `sync_namespace_labels`: one
`create_namespace_profile` per missing namespace, stopping at the first
raised exception. -/
def syncLoop (env : Env) (cluster_id : String) : List String → Except Exc Unit × List Call
  | [] => (.ok (), [])
  | n :: rest =>
    match create_namespace_profile env cluster_id n Option.none with
    | (.error e, t) => (.error e, t)
    | (.ok _, t) =>
      match syncLoop env cluster_id rest with
      | (r2, t2) => (r2, t ++ t2)

/-- Body of `IllumioService.sync_namespace_labels` (the `try` block): fetch
the cluster's profiles, compute the already-profiled namespace set, and
create a profile for every input namespace not in it. -/
def sync_namespace_labels_body (env : Env) (cluster_id : String)
    (namespaces : List String) : Except Exc Unit × List Call :=
  match get_cluster_profiles env cluster_id with
  | (.error e, t1) => (.error e, t1)
  | (.ok profiles, t1) =>
    match syncLoop env cluster_id (missingNamespaces namespaces (existingNamespaces profiles)) with
    | (r2, t2) => (r2, t1 ++ t2)

/-- Embeds `IllumioService.sync_namespace_labels`: body plus the `except` clause
re-raising as `IllumioError`. -/
def sync_namespace_labels (env : Env) (cluster_id : String)
    (namespaces : List String) : Except Exc Unit × List Call :=
  match sync_namespace_labels_body env cluster_id namespaces with
  | (r, t) =>
    (wrapExc (fun s => .illumioError ("Failed to sync namespace labels: " ++ s)) r, t)

/-- A backend call of the vault client: the single kv-v2 operation
`delete_secret_versions` performs. -/
inductive VaultCall where
  | deleteMetadataAndAllVersions (path : String) (mount_point : String)
  deriving Repr, DecidableEq

/-- The hvac kv-v2 backend as seen by `VaultClient.delete_secret_versions`:
the response (or hvac `VaultError` message) of
`delete_metadata_and_all_versions(path, mount_point)`. -/
def VaultBackend := String → String → Except String PyVal

set_option linter.unusedVariables false in
/-- Embeds `VaultClient.delete_secret_versions(path, versions, mount_point)`
(`app/core/vault_client.py`): resolves the mount point, prefixes the path
with `VAULT_DEFAULT_PATH` (`"illumio"`) and strips surrounding slashes, then
calls `delete_metadata_and_all_versions` — the `versions` argument is never
consulted — returning `True`, with hvac errors re-raised as `VaultError`. -/
def delete_secret_versions (backend : VaultBackend) (selfMount : String)
    (path : String) (versions : List Int) (mount_point : Option String) :
    Except Exc Bool × List VaultCall :=
  let mp := mount_point.getD selfMount
  let fullPath := stripSlash ("illumio/" ++ path)
  match backend fullPath mp with
  | .error m =>
    (.error (.vaultError ("Failed to delete secret versions: " ++ m)),
     [VaultCall.deleteMetadataAndAllVersions fullPath mp])
  | .ok _ => (.ok true, [VaultCall.deleteMetadataAndAllVersions fullPath mp])

/-! ### Concrete test environments -/

/-- A quiescent backend: empty list responses, succeeding deletes and secret
writes, and a generic API failure for any unexercised creation call. -/
def envEmpty : Env where
  getClusters := fun _ => .ok []
  postCluster := fun _ => .error (.apiError "stub")
  getLabels := fun _ _ => .ok []
  postLabel := fun _ => .error (.apiError "stub")
  getProfiles := fun _ => .ok []
  postProfile := fun _ _ => .error (.apiError "stub")
  postPairingProfile := fun _ => .error (.apiError "stub")
  postPairingKey := fun _ => .error (.apiError "stub")
  postSecPolicy := fun _ => .error (.apiError "stub")
  deleteApi := fun _ => .ok .none
  storeSecret := fun _ _ => .ok true
  deleteSecretVersions := fun _ _ => .ok true

/-- The sample cluster object of the repository's test fixtures
(`tests/conftest.py`). -/
def sampleCluster : ClusterRecord :=
  { name := "test-cluster", description := Option.some "Test Cluster",
    container_cluster_token := Option.some "test-token",
    href := Option.some "/orgs/1/container_clusters/123" }

example : mkContainerCluster sampleCluster = .ok sampleCluster := rfl

/-! ### Claim theorems -/

/-- Shared helper: an invalid cluster name makes `create_cluster` raise the
wrapped validation `ValueError` with an empty boundary trace. -/
theorem create_cluster_invalid_name (env : Env) (name : String)
    (desc : Option String) (mode : IllumioEnforcementMode)
    (h : is_valid_cluster_name name = false) :
    create_cluster env name desc mode =
      (.error (.clusterOperationError
        ("Failed to create cluster " ++ name ++ ": " ++ ("Invalid cluster name: " ++ name))), []) := by
  simp [create_cluster, create_cluster_body, h, wrapExc, Exc.msg]

/-- Shared helper: an invalid namespace makes `create_namespace_profile`
raise the wrapped validation `ValueError` with an empty boundary trace. -/
theorem create_namespace_profile_invalid (env : Env) (cluster_id ns : String)
    (labels : Option (List PyVal)) (h : is_valid_namespace ns = false) :
    create_namespace_profile env cluster_id ns labels =
      (.error (.illumioError
        ("Failed to create profile for namespace " ++ ns ++ ": " ++ ("Invalid namespace: " ++ ns))), []) := by
  simp [create_namespace_profile, create_namespace_profile_body, h, wrapExc, Exc.msg]

/-- C10: the pattern `[a-z0-9][a-z0-9-]*[a-z0-9]` (anchored) needs at least
two characters, so every single-character string fails both
`is_valid_cluster_name` and `is_valid_namespace`, and `create_cluster` and
`create_namespace_profile` reject such names before any boundary call. -/
theorem single_char_names_rejected (s : String) (h : s.length = 1) :
    is_valid_cluster_name s = false ∧ is_valid_namespace s = false ∧
    (∀ (env : Env) (desc : Option String) (mode : IllumioEnforcementMode),
      create_cluster env s desc mode =
        (.error (.clusterOperationError
          ("Failed to create cluster " ++ s ++ ": " ++ ("Invalid cluster name: " ++ s))), [])) ∧
    (∀ (env : Env) (cluster_id : String) (labels : Option (List PyVal)),
      create_namespace_profile env cluster_id s labels =
        (.error (.illumioError
          ("Failed to create profile for namespace " ++ s ++ ": " ++ ("Invalid namespace: " ++ s))), [])) := by
  have hdata : ∃ c, s.data = [c] := List.length_eq_one.mp h
  obtain ⟨c, hc⟩ := hdata
  have hvalid : is_valid_cluster_name s = false := by
    simp only [is_valid_cluster_name, pyDollarMatch, hc, clusterNameCore]
    simp only [List.getLast?_singleton, List.dropLast_single]
    simp [clusterNameCore]
  refine ⟨hvalid, hvalid, ?_, ?_⟩
  · intro env desc mode
    exact create_cluster_invalid_name env s desc mode hvalid
  · intro env cluster_id labels
    exact create_namespace_profile_invalid env cluster_id s labels hvalid

/-- C10 witness: the single-character name `"a"` is rejected. -/
theorem single_char_names_rejected_witness :
    ("a" : String).length = 1 ∧
    (is_valid_cluster_name "a" = false ∧ is_valid_namespace "a" = false ∧
      (∀ (env : Env) (desc : Option String) (mode : IllumioEnforcementMode),
        create_cluster env "a" desc mode =
          (.error (.clusterOperationError
            ("Failed to create cluster " ++ "a" ++ ": " ++ ("Invalid cluster name: " ++ "a"))), [])) ∧
      (∀ (env : Env) (cluster_id : String) (labels : Option (List PyVal)),
        create_namespace_profile env cluster_id "a" labels =
          (.error (.illumioError
            ("Failed to create profile for namespace " ++ "a" ++ ": " ++ ("Invalid namespace: " ++ "a"))), []))) :=
  ⟨by decide, single_char_names_rejected "a" (by decide)⟩

/-- C9: `delete_secret_versions` never consults its `versions` argument —
any two version lists (including the empty list) give the same result, and
the backend operation performed is always
`delete_metadata_and_all_versions` on the prefixed path. -/
theorem delete_secret_versions_ignores_versions
    (backend : VaultBackend) (selfMount path : String)
    (v1 v2 : List Int) (mp : Option String) :
    delete_secret_versions backend selfMount path v1 mp =
      delete_secret_versions backend selfMount path v2 mp ∧
    (delete_secret_versions backend selfMount path v1 mp).2 =
      [VaultCall.deleteMetadataAndAllVersions (stripSlash ("illumio/" ++ path)) (mp.getD selfMount)] := by
  constructor
  · rfl
  · simp only [delete_secret_versions]
    cases backend (stripSlash ("illumio/" ++ path)) (mp.getD selfMount) <;> rfl

/-- C8: whatever the backend does, `create_cluster` either returns a cluster
or raises a single `ClusterOperationError` whose message appends the original
cause to `"Failed to create cluster {name}: "` — the failing step (name
validation, PCE creation call, pairing-key generation or the secret-store
write) is not distinguishable by exception type. -/
theorem create_cluster_failures_uniform (env : Env) (name : String)
    (desc : Option String) (mode : IllumioEnforcementMode) :
    (∃ c t, create_cluster env name desc mode = (.ok c, t)) ∨
    (∃ e t, create_cluster env name desc mode =
      (.error (.clusterOperationError
        ("Failed to create cluster " ++ name ++ ": " ++ Exc.msg e)), t)) := by
  rcases hb : create_cluster_body env name desc mode with ⟨r, t⟩
  cases r with
  | ok c =>
    left
    exact ⟨c, t, by simp [create_cluster, hb, wrapExc]⟩
  | error e =>
    right
    exact ⟨e, t, by simp [create_cluster, hb, wrapExc]⟩

/-- C6 (bug evidence): the service passes bare endpoints to
`BaseAPIClient.request`, whose URL is `join_url(base_url, endpoint)` with no
organization segment, while the never-called `_build_url` would produce the
`/orgs/{org_id}/` prefixed URL; at the fixture base URL the two differ. -/
theorem request_url_missing_org_segment :
    request_url "https://illumio.test" "container_clusters" =
      "https://illumio.test/container_clusters" ∧
    build_url "https://illumio.test" "1" "container_clusters" =
      "https://illumio.test/orgs/1/container_clusters" ∧
    request_url "https://illumio.test" "container_clusters" ≠
      build_url "https://illumio.test" "1" "container_clusters" ∧
    (get_cluster envEmpty "test-cluster").2 =
      [Call.apiReq "GET" "container_clusters" [("name", "test-cluster")] Option.none] := by
  refine ⟨by decide, by decide, by decide, rfl⟩

/-- C1: `create_cluster` on a pattern-valid name always issues the PCE
creation POST as its first boundary call; on an invalid name it raises the
wrapped validation failure with zero boundary calls, and
`create_namespace_profile` does likewise for an invalid namespace. -/
theorem name_validation_gates_pce_calls (env : Env) (name : String)
    (desc : Option String) (mode : IllumioEnforcementMode) :
    (is_valid_cluster_name name = true →
      ∃ rest, (create_cluster env name desc mode).2 =
        Call.apiReq "POST" "container_clusters" []
          (Option.some (clusterPayload name desc mode.value)) :: rest) ∧
    (is_valid_cluster_name name = false →
      create_cluster env name desc mode =
        (.error (.clusterOperationError
          ("Failed to create cluster " ++ name ++ ": " ++ ("Invalid cluster name: " ++ name))), [])) ∧
    (∀ (cluster_id ns : String) (labels : Option (List PyVal)),
      is_valid_namespace ns = false →
      create_namespace_profile env cluster_id ns labels =
        (.error (.illumioError
          ("Failed to create profile for namespace " ++ ns ++ ": " ++ ("Invalid namespace: " ++ ns))), [])) := by
  refine ⟨?_, ?_, ?_⟩
  · intro h
    have hbody : ∃ rest, (create_cluster_body env name desc mode).2 =
        Call.apiReq "POST" "container_clusters" []
          (Option.some (clusterPayload name desc mode.value)) :: rest := by
      simp only [create_cluster_body, h, Bool.not_true]
      cases hp : env.postCluster (clusterPayload name desc mode.value) with
      | error e => exact ⟨[], by simp⟩
      | ok rec =>
        cases hm : mkContainerCluster rec with
        | error e => exact ⟨[], by simp [hm]⟩
        | ok cluster =>
          rcases hs : store_cluster_config env cluster with ⟨r2, t2⟩
          cases r2 with
          | error e => exact ⟨t2, by simp [hm, hs]⟩
          | ok u => exact ⟨t2, by simp [hm, hs]⟩
    obtain ⟨rest, hrest⟩ := hbody
    rcases hb : create_cluster_body env name desc mode with ⟨r, t⟩
    rw [hb] at hrest
    exact ⟨rest, by simp [create_cluster, hb]; exact hrest⟩
  · intro h
    exact create_cluster_invalid_name env name desc mode h
  · intro cluster_id ns labels h
    exact create_namespace_profile_invalid env cluster_id ns labels h

/-- C1 witness: the valid name `"prod-east"` reaches the PCE creation call;
the invalid name `"Bad Name"` and the invalid namespace `"Invalid NS"`
(of the spec scenario, against cluster id `"123"`) are rejected with an empty
trace. -/
theorem name_validation_gates_pce_calls_witness :
    (is_valid_cluster_name "prod-east" = true ∧
      ∃ rest, (create_cluster envEmpty "prod-east" Option.none IllumioEnforcementMode.full).2 =
        Call.apiReq "POST" "container_clusters" []
          (Option.some (clusterPayload "prod-east" Option.none "full")) :: rest) ∧
    (is_valid_cluster_name "Bad Name" = false ∧
      create_cluster envEmpty "Bad Name" Option.none IllumioEnforcementMode.visibility_only =
        (.error (.clusterOperationError
          ("Failed to create cluster " ++ "Bad Name" ++ ": " ++ ("Invalid cluster name: " ++ "Bad Name"))), [])) ∧
    (is_valid_namespace "Invalid NS" = false ∧
      create_namespace_profile envEmpty "123" "Invalid NS" Option.none =
        (.error (.illumioError
          ("Failed to create profile for namespace " ++ "Invalid NS" ++ ": " ++ ("Invalid namespace: " ++ "Invalid NS"))), [])) :=
  ⟨⟨by decide,
    (name_validation_gates_pce_calls envEmpty "prod-east" Option.none IllumioEnforcementMode.full).1 (by decide)⟩,
   ⟨by decide,
    (name_validation_gates_pce_calls envEmpty "Bad Name" Option.none IllumioEnforcementMode.visibility_only).2.1 (by decide)⟩,
   ⟨by decide,
    (name_validation_gates_pce_calls envEmpty "x" Option.none IllumioEnforcementMode.visibility_only).2.2
      "123" "Invalid NS" Option.none (by decide)⟩⟩

/-- C4: `get_cluster` performs one name-filtered read; it returns absent when
no returned record carries the exact queried name (near-matches included),
and otherwise returns the first exactly matching record, parsed through the
`ContainerCluster` model. -/
theorem get_cluster_exact_match (env : Env) (x : String)
    (recs : List ClusterRecord) (hresp : env.getClusters x = .ok recs) :
    ((∀ r ∈ recs, r.name ≠ x) →
      get_cluster env x = (.ok Option.none, [getClustersCall x])) ∧
    (∀ r c, recs.find? (fun q => q.name == x) = Option.some r →
      mkContainerCluster r = .ok c →
      get_cluster env x = (.ok (Option.some c), [getClustersCall x])) := by
  constructor
  · intro hne
    have hfind : recs.find? (fun q => q.name == x) = Option.none := by
      apply List.find?_eq_none.mpr
      intro r hr
      simpa using hne r hr
    simp [get_cluster, get_cluster_body, hresp, hfind, wrapExc]
  · intro r c hfind hmk
    simp [get_cluster, get_cluster_body, hresp, hfind, hmk, wrapExc]

/-- A backend whose name-filtered cluster list holds a near-match, an exact
match and a duplicate exact match, in that order. -/
def envNearMiss : Env :=
  { envEmpty with
    getClusters := fun _ =>
      .ok [{ name := "test-cluster-blue" }, sampleCluster, { name := "test-cluster" }] }

/-- C4 witness: querying `"prod-east"` against near-matches only is absent;
querying `"test-cluster"` returns the first exact match (`sampleCluster`),
not the near-match before it nor the duplicate after it. -/
theorem get_cluster_exact_match_witness :
    get_cluster envNearMiss "prod-east" = (.ok Option.none, [getClustersCall "prod-east"]) ∧
    get_cluster envNearMiss "test-cluster" =
      (.ok (Option.some sampleCluster), [getClustersCall "test-cluster"]) :=
  ⟨(get_cluster_exact_match envNearMiss "prod-east" _ rfl).1 (by decide),
   (get_cluster_exact_match envNearMiss "test-cluster" _ rfl).2 sampleCluster sampleCluster
     (by decide) rfl⟩

/-- C2: `delete_cluster` performs exactly one lookup read; a missing cluster
yields `False` with no further call, and a found cluster yields `True` after
exactly one PCE `DELETE` on the id from the cluster's `href` followed by
exactly one secret-store delete of `clusters/{name}`, in that order. -/
theorem delete_cluster_read_delete_order (env : Env) (name : String)
    (recs : List ClusterRecord) (hresp : env.getClusters name = .ok recs) :
    ((∀ r ∈ recs, r.name ≠ name) →
      delete_cluster env name = (.ok false, [getClustersCall name])) ∧
    (∀ r c h rv bv,
      recs.find? (fun q => q.name == name) = Option.some r →
      mkContainerCluster r = .ok c →
      c.href = Option.some h →
      env.deleteApi ("container_clusters/" ++ lastSegment h) = .ok rv →
      env.deleteSecretVersions ("clusters/" ++ name) [] = .ok bv →
      delete_cluster env name =
        (.ok true,
         [getClustersCall name,
          Call.apiReq "DELETE" ("container_clusters/" ++ lastSegment h) [] Option.none,
          Call.vaultDeleteVersions ("clusters/" ++ name) []])) := by
  constructor
  · intro hne
    have hgc := (get_cluster_exact_match env name recs hresp).1 hne
    simp [delete_cluster, delete_cluster_body, hgc, wrapExc]
  · intro r c h rv bv hfind hmk hhref hdel hvault
    have hgc := (get_cluster_exact_match env name recs hresp).2 r c hfind hmk
    simp [delete_cluster, delete_cluster_body, hgc, hhref, hdel, hvault, wrapExc]

/-- A backend that knows exactly the fixture cluster. -/
def envFound : Env :=
  { envEmpty with getClusters := fun _ => .ok [sampleCluster] }

/-- C2 witness: deleting `"non-existent"` reads once and returns `False`;
deleting `"test-cluster"` reads once, DELETEs `container_clusters/123`
(the id from the fixture `href`), deletes the secret `clusters/test-cluster`
and returns `True`. -/
theorem delete_cluster_read_delete_order_witness :
    delete_cluster envEmpty "non-existent" = (.ok false, [getClustersCall "non-existent"]) ∧
    delete_cluster envFound "test-cluster" =
      (.ok true,
       [getClustersCall "test-cluster",
        Call.apiReq "DELETE" "container_clusters/123" [] Option.none,
        Call.vaultDeleteVersions "clusters/test-cluster" []]) :=
  ⟨(delete_cluster_read_delete_order envEmpty "non-existent" [] rfl).1 (by decide),
   ((delete_cluster_read_delete_order envFound "test-cluster" [sampleCluster] rfl).2
     sampleCluster sampleCluster "/orgs/1/container_clusters/123" PyVal.none true
     (by decide) rfl rfl rfl rfl).trans (by rfl)⟩

/-- A backend whose label query result holds a single record that does not
match the queried key/value pair. -/
def envLabelMismatch : Env :=
  { envEmpty with
    getLabels := fun _ _ =>
      .ok [{ key := "role", value := "web", href := Option.some "/orgs/1/labels/9" }] }

/-- C3 counterexample: querying `get_or_create_label("env", "test")` against
a result list whose only record is `role=web`, the service returns that
record — which matches neither the key nor the value — after one read and no
create call, instead of a matching record. -/
theorem get_or_create_label_no_match_check :
    get_or_create_label envLabelMismatch "env" "test" =
      (.ok { key := "role", value := "web", href := Option.some "/orgs/1/labels/9" },
       [getLabelsCall "env" "test"]) ∧
    ¬("role" = "env" ∧ "web" = "test") :=
  ⟨rfl, by decide⟩

/-- C3 (amended): `get_or_create_label` performs exactly one read query;
a non-empty result returns the head record of the result, with no key/value
match check and no create call, and an empty result issues exactly one create
call and returns the created label. -/
theorem get_or_create_label_head_or_create (env : Env) (key value : String) :
    (∀ l ls lbl, env.getLabels key value = .ok (l :: ls) → mkLabel l = .ok lbl →
      get_or_create_label env key value = (.ok lbl, [getLabelsCall key value])) ∧
    (∀ rec lbl, env.getLabels key value = .ok [] →
      env.postLabel (labelPayload key value) = .ok rec → mkLabel rec = .ok lbl →
      get_or_create_label env key value =
        (.ok lbl,
         [getLabelsCall key value,
          Call.apiReq "POST" "labels" [] (Option.some (labelPayload key value))])) := by
  constructor
  · intro l ls lbl hresp hmk
    simp [get_or_create_label, get_or_create_label_body, hresp, hmk, wrapExc]
  · intro rec lbl hresp hpost hmk
    simp [get_or_create_label, get_or_create_label_body, hresp, hpost, hmk, wrapExc]

/-- A backend that creates the fixture label on POST. -/
def envLabelCreate : Env :=
  { envEmpty with
    postLabel := fun _ =>
      .ok { key := "env", value := "test", href := Option.some "/orgs/1/labels/456" } }

/-- C3 (amended) witness: a populated read returns its head record with one
read call; an empty read issues the create call and returns the created
label. -/
theorem get_or_create_label_head_or_create_witness :
    get_or_create_label envLabelMismatch "env" "test" =
      (.ok { key := "role", value := "web", href := Option.some "/orgs/1/labels/9" },
       [getLabelsCall "env" "test"]) ∧
    get_or_create_label envLabelCreate "env" "test" =
      (.ok { key := "env", value := "test", href := Option.some "/orgs/1/labels/456" },
       [getLabelsCall "env" "test",
        Call.apiReq "POST" "labels" [] (Option.some (labelPayload "env" "test"))]) :=
  ⟨(get_or_create_label_head_or_create envLabelMismatch "env" "test").1
     { key := "role", value := "web", href := Option.some "/orgs/1/labels/9" } [] _ rfl rfl,
   (get_or_create_label_head_or_create envLabelCreate "env" "test").2
     { key := "env", value := "test", href := Option.some "/orgs/1/labels/456" } _ rfl rfl rfl⟩

/-- C7: a `Rule` with no ingress service or an empty consumer or provider set
fails its model validator (so it is rejected at construction, before any
submission call), and `create_intra_namespace_rule` — once the namespace
label is resolved — submits to `sec_policy` exactly the rule named
`{cluster}-{namespace}-intra-ns` whose single ingress service is TCP
(`proto` 6, no port restriction) and whose sole consumer and sole provider
are the namespace label, with the `None`-valued fields (`description`,
`href`) omitted from the dump. -/
theorem intra_namespace_rule_shape :
    (∀ r : Rule,
      (r.ingress_services = [] ∨ r.consumers = [] ∨ r.providers = []) →
      ∃ m, r.validate = .error (.valueError m)) ∧
    (∀ (env : Env) (ns cluster_name : String) (lbl : LabelRecord) (h : String)
       (t1 : List Call),
      get_or_create_label env "namespace" ns = (.ok lbl, t1) →
      lbl.href = Option.some h →
      (create_intra_namespace_rule env ns cluster_name).2 =
        t1 ++ [Call.apiReq "POST" "sec_policy" [] (Option.some (PyVal.dict
          [("name", .str (cluster_name ++ "-" ++ ns ++ "-intra-ns")),
           ("enabled", .bool true),
           ("ingress_services", .list [.dict [("proto", .int 6)]]),
           ("resolve_labels_as", .dict []),
           ("consumers", .list [.dict [("label", .dict [("href", .str h)])]]),
           ("providers", .list [.dict [("label", .dict [("href", .str h)])]])]))]) := by
  constructor
  · intro r hr
    by_cases hi : r.ingress_services.isEmpty
    · exact ⟨"Rule must have at least one ingress service", by simp [Rule.validate, hi]⟩
    · have hcp : r.consumers.isEmpty || r.providers.isEmpty := by
        rcases hr with h1 | h2 | h3
        · exact absurd (List.isEmpty_iff.mpr h1) hi
        · simp [h2]
        · simp [h3]
      exact ⟨"Rule must have both consumers and providers", by simp [Rule.validate, hi, hcp]⟩
  · intro env ns cluster_name lbl h t1 hlbl hhref
    have hdump : (intraNamespaceRule ns cluster_name lbl.href).dumpExcludeNone =
        PyVal.dict
          [("name", .str (cluster_name ++ "-" ++ ns ++ "-intra-ns")),
           ("enabled", .bool true),
           ("ingress_services", .list [.dict [("proto", .int 6)]]),
           ("resolve_labels_as", .dict []),
           ("consumers", .list [.dict [("label", .dict [("href", .str h)])]]),
           ("providers", .list [.dict [("label", .dict [("href", .str h)])]])] := by
      simp [intraNamespaceRule, Rule.dumpExcludeNone, hhref, optStr]
    have hvalid : (intraNamespaceRule ns cluster_name lbl.href).validate =
        .ok (intraNamespaceRule ns cluster_name lbl.href) := by
      simp [intraNamespaceRule, Rule.validate]
    simp only [create_intra_namespace_rule, create_intra_namespace_rule_body, hlbl, hvalid, hdump]
    cases env.postSecPolicy (PyVal.dict
          [("name", .str (cluster_name ++ "-" ++ ns ++ "-intra-ns")),
           ("enabled", .bool true),
           ("ingress_services", .list [.dict [("proto", .int 6)]]),
           ("resolve_labels_as", .dict []),
           ("consumers", .list [.dict [("label", .dict [("href", .str h)])]]),
           ("providers", .list [.dict [("label", .dict [("href", .str h)])]])]) <;> rfl

/-- A backend that already holds the `namespace=frontend` label. -/
def envNamespaceLabel : Env :=
  { envEmpty with
    getLabels := fun _ _ =>
      .ok [{ key := "namespace", value := "frontend", href := Option.some "/orgs/1/labels/7" }] }

/-- C7 witness: an ingress-service-free rule fails validation, and the
submission for namespace `frontend` on cluster `test-cluster` carries the
expected payload after the label lookup. -/
theorem intra_namespace_rule_shape_witness :
    (∃ m, (Rule.validate { name := "r" }) = .error (.valueError m)) ∧
    (create_intra_namespace_rule envNamespaceLabel "frontend" "test-cluster").2 =
      [getLabelsCall "namespace" "frontend",
       Call.apiReq "POST" "sec_policy" [] (Option.some (PyVal.dict
         [("name", .str "test-cluster-frontend-intra-ns"),
          ("enabled", .bool true),
          ("ingress_services", .list [.dict [("proto", .int 6)]]),
          ("resolve_labels_as", .dict []),
          ("consumers", .list [.dict [("label", .dict [("href", .str "/orgs/1/labels/7")])]]),
          ("providers", .list [.dict [("label", .dict [("href", .str "/orgs/1/labels/7")])]])]))] :=
  ⟨intra_namespace_rule_shape.1 { name := "r" } (Or.inl rfl),
   (intra_namespace_rule_shape.2 envNamespaceLabel "frontend" "test-cluster"
     { key := "namespace", value := "frontend", href := Option.some "/orgs/1/labels/7" }
     "/orgs/1/labels/7" [getLabelsCall "namespace" "frontend"] rfl rfl).trans (by rfl)⟩

/-- Recognizes a profile-creation POST for namespace `n` under cluster
`cluster_id`: a `POST` to the cluster's workload-profiles endpoint whose
payload carries `"namespace"` mapped to `n`. -/
def isProfilePost (cluster_id n : String) (c : Call) : Bool :=
  match c with
  | .apiReq m ep _ (Option.some (.dict kvs)) =>
    m == "POST" && ep == profilesEndpoint cluster_id &&
      (match kvs.find? (fun kv => kv.1 == "namespace") with
       | Option.some (_, .str s) => s == n
       | _ => false)
  | _ => false

/-- Shared helper: a successful `create_namespace_profile` performed exactly
its one profile-creation POST. -/
theorem create_namespace_profile_ok_trace (env : Env) (cid n : String)
    (ls : Option (List PyVal)) (p : ProfileRecord)
    (h : (create_namespace_profile env cid n ls).1 = .ok p) :
    (create_namespace_profile env cid n ls).2 =
      [Call.apiReq "POST" (profilesEndpoint cid) [] (Option.some (profilePayload n ls))] := by
  by_cases hv : is_valid_namespace n
  · simp only [create_namespace_profile, create_namespace_profile_body, hv, Bool.not_true,
      Bool.false_eq_true, if_false]
    cases hp : env.postProfile cid (profilePayload n ls) with
    | error e => simp [hp, wrapExc]
    | ok rec => cases hm : mkContainerProfile rec <;> simp [hp, hm, wrapExc]
  · exfalso
    have hv' : is_valid_namespace n = false := by simpa using hv
    rw [create_namespace_profile_invalid env cid n ls hv'] at h
    simp at h

/-- Shared helper: the creation loop of `sync_namespace_labels`, when every
iteration succeeds, succeeds and performs exactly one profile POST per listed
namespace, in order. -/
theorem syncLoop_ok_trace (env : Env) (cid : String) (l : List String)
    (h : ∀ n ∈ l, ∃ p, (create_namespace_profile env cid n Option.none).1 = .ok p) :
    syncLoop env cid l =
      (.ok (), l.map fun n =>
        Call.apiReq "POST" (profilesEndpoint cid) [] (Option.some (profilePayload n Option.none))) := by
  induction l with
  | nil => rfl
  | cons n rest ih =>
    obtain ⟨p, hp⟩ := h n (List.mem_cons_self n rest)
    have htr := create_namespace_profile_ok_trace env cid n Option.none p hp
    rcases hc : create_namespace_profile env cid n Option.none with ⟨r, t⟩
    rw [hc] at hp htr
    simp only at hp htr
    subst hp htr
    have ihr := ih (fun m hm => h m (List.mem_cons_of_mem n hm))
    simp [syncLoop, hc, ihr]

/-- Shared helper: `get_cluster_profiles` always performs exactly one read of
the cluster's workload profiles. -/
theorem get_cluster_profiles_trace (env : Env) (cid : String) :
    (get_cluster_profiles env cid).2 =
      [Call.apiReq "GET" (profilesEndpoint cid) [] Option.none] := by
  simp only [get_cluster_profiles, get_cluster_profiles_body]
  cases env.getProfiles cid <;> rfl

/-- Shared helper: membership in the missing-namespace enumeration. -/
theorem mem_missingNamespaces (n : String) (nss ex : List String) :
    n ∈ missingNamespaces nss ex ↔ n ∈ nss ∧ n ∉ ex := by
  simp [missingNamespaces, List.mem_filter, List.mem_dedup]

/-- Shared helper: the missing-namespace enumeration has no duplicates. -/
theorem missingNamespaces_nodup (nss ex : List String) :
    (missingNamespaces nss ex).Nodup :=
  (List.nodup_dedup nss).filter _

/-- Shared helper: `isProfilePost` on a profile POST compares the payload
namespace. -/
theorem isProfilePost_profilePost (cid n m : String) :
    isProfilePost cid n
      (Call.apiReq "POST" (profilesEndpoint cid) [] (Option.some (profilePayload m Option.none))) =
      (m == n) := by
  simp [isProfilePost, profilePayload]

/-- C5: `sync_namespace_labels` reads the cluster's profiles once, then
creates exactly one profile for each distinct input namespace absent from
the already-profiled namespace set and none for namespaces already profiled;
when the existing-profile set already covers the input (as after a first
run), it creates nothing. -/
theorem sync_namespace_labels_additive (env : Env) (cid : String)
    (nss : List String) (profiles : List ProfileRecord)
    (hget : (get_cluster_profiles env cid).1 = .ok profiles)
    (hok : ∀ n ∈ missingNamespaces nss (existingNamespaces profiles),
      ∃ p, (create_namespace_profile env cid n Option.none).1 = .ok p) :
    (sync_namespace_labels env cid nss).1 = .ok () ∧
    (∀ n, (sync_namespace_labels env cid nss).2.countP (isProfilePost cid n) =
      if n ∈ nss ∧ n ∉ existingNamespaces profiles then 1 else 0) ∧
    (∀ (env2 : Env) (profiles2 : List ProfileRecord),
      (get_cluster_profiles env2 cid).1 = .ok profiles2 →
      (∀ n ∈ nss, n ∈ existingNamespaces profiles2) →
      sync_namespace_labels env2 cid nss =
        (.ok (), [Call.apiReq "GET" (profilesEndpoint cid) [] Option.none])) := by
  rcases hp : get_cluster_profiles env cid with ⟨r, t1⟩
  have ht1 : t1 = [Call.apiReq "GET" (profilesEndpoint cid) [] Option.none] := by
    have := get_cluster_profiles_trace env cid
    rw [hp] at this
    exact this
  rw [hp] at hget
  simp only at hget
  subst hget ht1
  have hloop := syncLoop_ok_trace env cid
    (missingNamespaces nss (existingNamespaces profiles)) hok
  have hsync : sync_namespace_labels env cid nss =
      (.ok (),
       Call.apiReq "GET" (profilesEndpoint cid) [] Option.none ::
         ((missingNamespaces nss (existingNamespaces profiles)).map fun n =>
           Call.apiReq "POST" (profilesEndpoint cid) [] (Option.some (profilePayload n Option.none)))) := by
    simp [sync_namespace_labels, sync_namespace_labels_body, hp, hloop, wrapExc]
  refine ⟨by rw [hsync], ?_, ?_⟩
  · intro n
    rw [hsync]
    simp only [List.countP_cons, List.countP_map]
    have hhead : isProfilePost cid n (Call.apiReq "GET" (profilesEndpoint cid) [] Option.none) = false := rfl
    have hcnt : List.countP
        ((isProfilePost cid n) ∘ fun m =>
          Call.apiReq "POST" (profilesEndpoint cid) [] (Option.some (profilePayload m Option.none)))
        (missingNamespaces nss (existingNamespaces profiles)) =
        List.count n (missingNamespaces nss (existingNamespaces profiles)) := by
      apply List.countP_congr
      intro m hm
      simp [Function.comp, isProfilePost_profilePost, List.count]
    rw [hcnt, hhead]
    by_cases hmem : n ∈ nss ∧ n ∉ existingNamespaces profiles
    · rw [if_pos hmem]
      have : n ∈ missingNamespaces nss (existingNamespaces profiles) :=
        (mem_missingNamespaces n nss (existingNamespaces profiles)).mpr hmem
      simp [List.count_eq_one_of_mem (missingNamespaces_nodup nss (existingNamespaces profiles)) this]
    · rw [if_neg hmem]
      have : n ∉ missingNamespaces nss (existingNamespaces profiles) := by
        intro hc
        exact hmem ((mem_missingNamespaces n nss (existingNamespaces profiles)).mp hc)
      simp [List.count_eq_zero.mpr this]
  · intro env2 profiles2 hget2 hcover
    rcases hp2 : get_cluster_profiles env2 cid with ⟨r2, t2⟩
    have ht2 : t2 = [Call.apiReq "GET" (profilesEndpoint cid) [] Option.none] := by
      have := get_cluster_profiles_trace env2 cid
      rw [hp2] at this
      exact this
    rw [hp2] at hget2
    simp only at hget2
    subst hget2 ht2
    have hmiss : missingNamespaces nss (existingNamespaces profiles2) = [] := by
      apply List.filter_eq_nil_iff.mpr
      intro a ha
      simp [hcover a (List.mem_dedup.mp ha)]
    simp [sync_namespace_labels, sync_namespace_labels_body, hp2, hmiss, syncLoop, wrapExc]

/-- A backend with one existing profile (`default`) whose profile-creation
POST succeeds. -/
def envSyncFirst : Env :=
  { envEmpty with
    getProfiles := fun _ => .ok [{ name := "p-default", «namespace» := Option.some "default" }],
    postProfile := fun _ _ => .ok { name := "p-new", «namespace» := Option.some "frontend" } }

/-- The same backend after the first run: both `default` and `frontend` are
profiled. -/
def envSyncSecond : Env :=
  { envSyncFirst with
    getProfiles := fun _ =>
      .ok [{ name := "p-default", «namespace» := Option.some "default" },
           { name := "p-new", «namespace» := Option.some "frontend" }] }

/-- C5 witness: with `default` already profiled and input
`["frontend", "default", "frontend"]`, the sync succeeds, creates exactly one
profile for `frontend` and none for `default`; rerunning against the
post-first-run profile set creates nothing. -/
theorem sync_namespace_labels_additive_witness :
    (sync_namespace_labels envSyncFirst "123" ["frontend", "default", "frontend"]).1 = .ok () ∧
    (sync_namespace_labels envSyncFirst "123" ["frontend", "default", "frontend"]).2.countP
      (isProfilePost "123" "frontend") = 1 ∧
    (sync_namespace_labels envSyncFirst "123" ["frontend", "default", "frontend"]).2.countP
      (isProfilePost "123" "default") = 0 ∧
    sync_namespace_labels envSyncSecond "123" ["frontend", "default", "frontend"] =
      (.ok (), [Call.apiReq "GET" (profilesEndpoint "123") [] Option.none]) := by
  have hok : ∀ n ∈ missingNamespaces ["frontend", "default", "frontend"]
      (existingNamespaces [{ name := "p-default", «namespace» := Option.some "default" }]),
      ∃ p, (create_namespace_profile envSyncFirst "123" n Option.none).1 = .ok p := by
    intro n hn
    have hmiss : missingNamespaces ["frontend", "default", "frontend"]
        (existingNamespaces [{ name := "p-default", «namespace» := Option.some "default" }]) =
        ["frontend"] := by decide
    rw [hmiss] at hn
    have hn' : n = "frontend" := by simpa using hn
    subst hn'
    exact ⟨{ name := "p-new", «namespace» := Option.some "frontend" }, rfl⟩
  have H := sync_namespace_labels_additive envSyncFirst "123"
    ["frontend", "default", "frontend"]
    [{ name := "p-default", «namespace» := Option.some "default" }] rfl hok
  refine ⟨H.1, (H.2.1 "frontend").trans (by decide), (H.2.1 "default").trans (by decide), ?_⟩
  exact H.2.2 envSyncSecond
    [{ name := "p-default", «namespace» := Option.some "default" },
     { name := "p-new", «namespace» := Option.some "frontend" }] rfl (by decide)

end IllumioMgr
